import Mathlib

/-!
Verification of the ingestion pipeline in
`RAGMaster/src/langchain/langchain_utils/langchain_index_utils.py`
(`class PrepareVectorDB`), as a shallow embedding.

The repository code is glue over external collaborators (PyPDFLoader,
the langchain text splitters, OpenAIEmbeddings, Chroma).  The embedding
translates the repository's own orchestration logic faithfully; the
external collaborators are modelled abstractly, following the
collaborator contracts the spec states for them (one page-document
sequence per path, a pure split function, a per-text embedder that may
fail, a persist step that may fail).
-/

/-- A page-level document as produced by `PyPDFLoader(path).load()`:
text plus provenance metadata (source path, page index). -/
structure Doc where
  page_content : String
  source : String
  page : Nat
deriving DecidableEq, Repr

/-- The runtime type of `self.data_directory`: the Python attribute is
either a plain string (a directory path) or a list of file paths;
`__load_all_documents` branches on `isinstance(self.data_directory, list)`. -/
inductive DataDirectory where
  | str (path : String)
  | list (paths : List String)
deriving DecidableEq, Repr

/-- The splitter object stored in `self.text_splitter`: the external
constructors `RecursiveCharacterTextSplitter(...)` and
`TokenTextSplitter(...)` are modelled as records of the parameters the
repository passes them (any validation the library itself performs is
the library's behaviour, not this repository's). -/
inductive TextSplitter where
  | recursiveCharacter (chunk_size chunk_overlap : Int) (separators : List String)
  | token (chunk_size chunk_overlap : Int)
deriving DecidableEq, Repr

/-- The error taxonomy of the spec (§7) plus Python's `AttributeError`,
which is what actually surfaces when an unrecognized `splitter_type`
left `self.text_splitter` / `self.persist_directory` unset. -/
inductive PipelineError where
  | documentLoadError (path : String)
  | configurationError (msg : String)
  | embeddingBackendError (msg : String)
  | storageError (msg : String)
  | attributeError (attr : String)
deriving DecidableEq, Repr

/-- The state of a `PrepareVectorDB` instance after `__init__`.
`text_splitter` and `persist_directory` are `Option`s because the
source's `if/elif` on `splitter_type` has no `else` arm: an
unrecognized value leaves both attributes unset. -/
structure PrepareVectorDB where
  embedding_model_engine : String
  splitter_type : String
  text_splitter : Option TextSplitter
  persist_directory : Option String
  data_directory : DataDirectory
deriving DecidableEq, Repr

/-- `PrepareVectorDB.__init__`, translated line by line.  The source
performs no validation and contains no `raise`; the `Except` return
type records that Python construction could in principle raise, and the
translation shows it never does. -/
def PrepareVectorDB.init
    (data_directory : DataDirectory)
    (token_vector_db_save_dir : String)
    (recursive_vector_db_save_dir : String)
    (embedding_model_engine : String)
    (chunk_size chunk_overlap token_chunk_size token_chunk_overlap : Int)
    (splitter_type : String) : Except PipelineError PrepareVectorDB :=
  let assigned : Option TextSplitter × Option String :=
    if splitter_type = "recursive" then
      (some (.recursiveCharacter chunk_size chunk_overlap ["\n\n", "\n", " ", ""]),
       some recursive_vector_db_save_dir)
    else if splitter_type = "token" then
      (some (.token token_chunk_size token_chunk_overlap),
       some token_vector_db_save_dir)
    else
      (none, none)
  .ok { embedding_model_engine := embedding_model_engine
        splitter_type := splitter_type
        text_splitter := assigned.1
        persist_directory := assigned.2
        data_directory := data_directory }

/-- The filesystem and PDF loader the pipeline runs against.
`listdir` models `os.listdir` (directory-listing order, not sorted);
`pypdf_load` models `PyPDFLoader(path).load()`: `some pages` for a
readable document, `none` for an unreadable/corrupt one. -/
structure FileSystem where
  listdir : String → List String
  pypdf_load : String → Option (List Doc)

/-- Model of `os.path.join(dir, name)` for the plain relative names
`os.listdir` yields. -/
def osPathJoin (dir name : String) : String := dir ++ "/" ++ name

/-- `PyPDFLoader(path).load()` as the spec's DocumentSource contract
(§6) requires: the failure identifies the offending path. -/
def FileSystem.loadPDF (fs : FileSystem) (path : String) :
    Except PipelineError (List Doc) :=
  match fs.pypdf_load path with
  | some pages => .ok pages
  | none => .error (.documentLoadError path)

/-- The accumulation loop shared by both branches of
`__load_all_documents`: `docs = []; for p in paths: docs.extend(load(p))`.
The first loader exception aborts the whole loop. -/
def loadLoop (fs : FileSystem) : List String → Except PipelineError (List Doc)
  | [] => .ok []
  | p :: ps =>
    match fs.loadPDF p with
    | .error e => .error e
    | .ok pages =>
      match loadLoop fs ps with
      | .error e => .error e
      | .ok rest => .ok (pages ++ rest)

/-- `PrepareVectorDB.__load_all_documents`: list mode iterates the
given paths directly; everything else (`else` branch, i.e. a string)
is enumerated via `os.listdir` and joined with the directory path. -/
def PrepareVectorDB.load_all_documents (fs : FileSystem) (s : PrepareVectorDB) :
    Except PipelineError (List Doc) :=
  match s.data_directory with
  | .list paths => loadLoop fs paths
  | .str dir => loadLoop fs ((fs.listdir dir).map (osPathJoin dir))

/-- The external collaborators behind splitting, embedding and storage.
`split_documents` models `text_splitter.split_documents` (per §6 a pure
function of the splitter's parameters and the documents);
`embed` models one embedding call on one text (may fail, e.g. auth or
quota); `persist` models the storage backend's ability to create and
persist a collection rooted at a directory (may fail, e.g. permission). -/
structure Backend where
  split_documents : TextSplitter → List Doc → List Doc
  embed : (engine : String) → (text : String) → Except PipelineError (List Int)
  persist : (dir : String) → Except PipelineError Unit

/-- One persisted index entry: (embedding vector, chunk text, metadata). -/
structure IndexEntry where
  vector : List Int
  text : String
  source : String
  page : Nat
deriving DecidableEq, Repr

/-- The vector index handle returned by `Chroma.from_documents`. -/
structure Chroma where
  entries : List IndexEntry
  persist_directory : String
deriving DecidableEq, Repr

/-- `vectordb._collection.count()`: the number of stored entries. -/
def Chroma.count (c : Chroma) : Nat := c.entries.length

/-- Embed every chunk in order, one call per chunk; the first backend
failure aborts. -/
def embedAll (B : Backend) (engine : String) :
    List Doc → Except PipelineError (List IndexEntry)
  | [] => .ok []
  | d :: ds =>
    match B.embed engine d.page_content with
    | .error e => .error e
    | .ok v =>
      match embedAll B engine ds with
      | .error e => .error e
      | .ok rest =>
        .ok ({ vector := v, text := d.page_content,
               source := d.source, page := d.page } :: rest)

/-- Modelled from the spec: `Chroma.from_documents` is external library
code, not in `src/`; §3 and §6 give its contract — one IndexEntry is
created per chunk at ingestion time, embedding each chunk may fail with
an `EmbeddingBackendError`, and persisting to the directory may fail
with a `StorageError`; `count()` reports the total stored entries. -/
def Chroma.from_documents (B : Backend) (engine : String)
    (documents : List Doc) (persist_directory : String) :
    Except PipelineError Chroma :=
  match embedAll B engine documents with
  | .error e => .error e
  | .ok entries =>
    match B.persist persist_directory with
    | .error e => .error e
    | .ok _ => .ok { entries := entries, persist_directory := persist_directory }

/-- `PrepareVectorDB.__chunk_documents`: delegates to
`self.text_splitter.split_documents(docs)`.  When `splitter_type` was
unrecognized the attribute was never set and the access raises
`AttributeError`. -/
def PrepareVectorDB.chunk_documents (B : Backend) (s : PrepareVectorDB)
    (docs : List Doc) : Except PipelineError (List Doc) :=
  match s.text_splitter with
  | some ts => .ok (B.split_documents ts docs)
  | none => .error (.attributeError "text_splitter")

/-- `PrepareVectorDB.prepare_and_save_vectordb`: load, then chunk, then
`Chroma.from_documents(...)` rooted at `self.persist_directory`.  The
second component of the result is the post-state of the instance (the
method assigns no attribute, so it is the input state unchanged); the
third is the trace of persistence directories this run handed to the
vector store (empty when the run fails before reaching the store). -/
def PrepareVectorDB.prepare_and_save_vectordb (B : Backend) (fs : FileSystem)
    (s : PrepareVectorDB) :
    Except PipelineError (Chroma × PrepareVectorDB) × List String :=
  match s.load_all_documents fs with
  | .error e => (.error e, [])
  | .ok docs =>
    match s.chunk_documents B docs with
    | .error e => (.error e, [])
    | .ok chunked_documents =>
      match s.persist_directory with
      | none => (.error (.attributeError "persist_directory"), [])
      | some pd =>
        match Chroma.from_documents B s.embedding_model_engine chunked_documents pd with
        | .error e => (.error e, [pd])
        | .ok vectordb => (.ok (vectordb, s), [pd])

/-! ### Concrete fixtures used to witness the theorems -/

/-- A backend whose splitter passes documents through, whose embedder
always answers a fixed vector, and whose storage always accepts. -/
def demoBackend : Backend where
  split_documents := fun _ docs => docs
  embed := fun _ _ => .ok [1, 2]
  persist := fun _ => .ok ()

/-- A one-page document. -/
def demoDoc : Doc := { page_content := "hello", source := "d/a.pdf", page := 0 }

/-- A filesystem whose directory `"d"` lists one readable PDF. -/
def demoFS : FileSystem where
  listdir := fun _ => ["a.pdf"]
  pypdf_load := fun p => if p = "d/a.pdf" then some [demoDoc] else none

/-- A filesystem whose directory `"d"` lists a corrupt file between two
readable ones. -/
def corruptFS : FileSystem where
  listdir := fun _ => ["a.pdf", "bad.pdf", "c.pdf"]
  pypdf_load := fun p => if p = "d/bad.pdf" then none else some [demoDoc]

/-- A filesystem where `"only.pdf"` parses as a one-page PDF but no
directory lists anything. -/
def singleFileFS : FileSystem where
  listdir := fun _ => []
  pypdf_load := fun p => if p = "only.pdf" then some [demoDoc] else none

/-- A filesystem with `a.pdf` (2 pages) and `b.pdf` (3 pages). -/
def fivePageFS : FileSystem where
  listdir := fun _ => ["a.pdf", "b.pdf"]
  pypdf_load := fun p =>
    if p = "a.pdf" then
      some [{ page_content := "a0", source := "a.pdf", page := 0 },
            { page_content := "a1", source := "a.pdf", page := 1 }]
    else if p = "b.pdf" then
      some [{ page_content := "b0", source := "b.pdf", page := 0 },
            { page_content := "b1", source := "b.pdf", page := 1 },
            { page_content := "b2", source := "b.pdf", page := 2 }]
    else none

/-- The page map of `fivePageFS`. -/
def fivePages (p : String) : List Doc :=
  if p = "a.pdf" then
    [{ page_content := "a0", source := "a.pdf", page := 0 },
     { page_content := "a1", source := "a.pdf", page := 1 }]
  else if p = "b.pdf" then
    [{ page_content := "b0", source := "b.pdf", page := 0 },
     { page_content := "b1", source := "b.pdf", page := 1 },
     { page_content := "b2", source := "b.pdf", page := 2 }]
  else []

/-- The instance `PrepareVectorDB.init (.str "d") "tok_db" "rec_db" "ada"
500 50 300 30 "recursive"` constructs. -/
def demoState : PrepareVectorDB :=
  { embedding_model_engine := "ada", splitter_type := "recursive",
    text_splitter := some (.recursiveCharacter 500 50 ["\n\n", "\n", " ", ""]),
    persist_directory := some "rec_db", data_directory := .str "d" }

/-- A state agreeing with `demoState` on `text_splitter` only. -/
def demoStateOther : PrepareVectorDB :=
  { embedding_model_engine := "other-engine", splitter_type := "recursive",
    text_splitter := some (.recursiveCharacter 500 50 ["\n\n", "\n", " ", ""]),
    persist_directory := some "elsewhere", data_directory := .list ["x.pdf"] }

/-! ### Helper lemmas -/

theorem loadLoop_ok (fs : FileSystem) (pages : String → List Doc) :
    ∀ ps : List String, (∀ p ∈ ps, fs.pypdf_load p = some (pages p)) →
      loadLoop fs ps = .ok (ps.flatMap pages) := by
  intro ps
  induction ps with
  | nil => intro _; rfl
  | cons p ps ih =>
    intro h
    have hp : fs.pypdf_load p = some (pages p) := h p (by simp)
    have hps := ih (fun q hq => h q (by simp [hq]))
    simp [loadLoop, FileSystem.loadPDF, hp, hps]

theorem loadLoop_error_at (fs : FileSystem) (pages : String → List Doc)
    (p : String) (hp : fs.pypdf_load p = none) :
    ∀ pre post : List String, (∀ q ∈ pre, fs.pypdf_load q = some (pages q)) →
      loadLoop fs (pre ++ p :: post) = .error (.documentLoadError p) := by
  intro pre
  induction pre with
  | nil =>
    intro post _
    simp [loadLoop, FileSystem.loadPDF, hp]
  | cons q pre ih =>
    intro post h
    have hq : fs.pypdf_load q = some (pages q) := h q (by simp)
    have hps := ih post (fun r hr => h r (by simp [hr]))
    simp [loadLoop, FileSystem.loadPDF, hq, hps]

theorem embedAll_length (B : Backend) (engine : String) :
    ∀ ds es, embedAll B engine ds = .ok es → es.length = ds.length := by
  intro ds
  induction ds with
  | nil =>
    intro es h
    simp only [embedAll] at h
    cases h
    rfl
  | cons d ds ih =>
    intro es h
    simp only [embedAll] at h
    cases hv : B.embed engine d.page_content with
    | error e => rw [hv] at h; exact absurd h (by simp)
    | ok v =>
      rw [hv] at h
      cases hr : embedAll B engine ds with
      | error e => rw [hr] at h; exact absurd h (by simp)
      | ok rest =>
        rw [hr] at h
        cases h
        simp [ih rest hr]

theorem from_documents_entries (B : Backend) (engine : String)
    (documents : List Doc) (pd : String) (c : Chroma)
    (h : Chroma.from_documents B engine documents pd = .ok c) :
    c.count = documents.length ∧ c.persist_directory = pd := by
  simp only [Chroma.from_documents] at h
  cases he : embedAll B engine documents with
  | error e => rw [he] at h; exact absurd h (by simp)
  | ok entries =>
    rw [he] at h
    cases hw : B.persist pd with
    | error e => rw [hw] at h; exact absurd h (by simp)
    | ok u =>
      rw [hw] at h
      cases h
      exact ⟨embedAll_length B engine documents entries he, rfl⟩

theorem prepare_ok_inv (B : Backend) (fs : FileSystem) (s : PrepareVectorDB)
    (vdb : Chroma) (s2 : PrepareVectorDB) (log : List String)
    (h : s.prepare_and_save_vectordb B fs = (.ok (vdb, s2), log)) :
    s2 = s ∧ ∃ docs ts pd,
      s.load_all_documents fs = .ok docs ∧
      s.text_splitter = some ts ∧
      s.persist_directory = some pd ∧
      Chroma.from_documents B s.embedding_model_engine
        (B.split_documents ts docs) pd = .ok vdb ∧
      log = [pd] := by
  simp only [PrepareVectorDB.prepare_and_save_vectordb] at h
  cases hl : s.load_all_documents fs with
  | error e => simp only [hl] at h; exact absurd h (by simp)
  | ok docs =>
    simp only [hl] at h
    cases hts : s.text_splitter with
    | none => simp [PrepareVectorDB.chunk_documents, hts] at h
    | some ts =>
      simp only [PrepareVectorDB.chunk_documents, hts] at h
      cases hpd : s.persist_directory with
      | none => simp only [hpd] at h; exact absurd h (by simp)
      | some pd =>
        simp only [hpd] at h
        cases hfd : Chroma.from_documents B s.embedding_model_engine
            (B.split_documents ts docs) pd with
        | error e => simp only [hfd] at h; exact absurd h (by simp)
        | ok v =>
          simp only [hfd] at h
          have h1 := congrArg Prod.fst h
          have h2 := congrArg Prod.snd h
          simp only [Prod.fst, Prod.snd, Except.ok.injEq, Prod.mk.injEq] at h1 h2
          obtain ⟨hv, hs2⟩ := h1
          subst hv; subst hs2; subst h2
          exact ⟨rfl, docs, ts, pd, rfl, rfl, rfl, hfd, rfl⟩

theorem prepare_log_cases (B : Backend) (fs : FileSystem) (s : PrepareVectorDB) :
    (s.prepare_and_save_vectordb B fs).2 = [] ∨
    ∃ pd, s.persist_directory = some pd ∧
      (s.prepare_and_save_vectordb B fs).2 = [pd] := by
  simp only [PrepareVectorDB.prepare_and_save_vectordb]
  cases hl : s.load_all_documents fs with
  | error e => simp
  | ok docs =>
    cases hc : s.chunk_documents B docs with
    | error e => simp [hc]
    | ok chunks =>
      cases hpd : s.persist_directory with
      | none => simp [hc]
      | some pd =>
        cases hfd : Chroma.from_documents B s.embedding_model_engine chunks pd with
        | error e => refine Or.inr ⟨pd, rfl, ?_⟩; simp [hc, hfd]
        | ok v => refine Or.inr ⟨pd, rfl, ?_⟩; simp [hc, hfd]

/-! ### Claim theorems -/

/-- C1 (counterexample): construction does not raise `ConfigurationError`
on an invalid configuration.  With the invalid splitter policy
`"character"` the constructor succeeds, silently yielding an instance
with no text splitter and no persistence directory; and with
`chunk_overlap = chunk_size = 100` under the `"recursive"` policy the
constructor also succeeds. -/
theorem C1_init_does_not_validate_counterexample :
    PrepareVectorDB.init (.str "data") "tok_db" "rec_db" "ada" 500 50 500 50 "character" =
      .ok { embedding_model_engine := "ada", splitter_type := "character",
            text_splitter := none, persist_directory := none,
            data_directory := .str "data" } ∧
    (PrepareVectorDB.init (.str "data") "tok_db" "rec_db" "ada" 100 100 500 50
        "recursive").isOk = true :=
  ⟨rfl, rfl⟩

/-- C1 (amended): construction performs no configuration validation at all
and never raises: every argument combination — including an unrecognized
splitter policy, non-positive sizes and overlap ≥ size — yields an
instance; an unrecognized splitter policy silently leaves the instance
with no text splitter and no persistence directory, deferring the
failure to later attribute access. -/
theorem C1_init_accepts_any_configuration
    (dd : DataDirectory) (tokDir recDir emb : String)
    (cs co tcs tco : Int) (st : String) :
    (PrepareVectorDB.init dd tokDir recDir emb cs co tcs tco st).isOk = true ∧
    (st ≠ "recursive" → st ≠ "token" →
      PrepareVectorDB.init dd tokDir recDir emb cs co tcs tco st =
        .ok { embedding_model_engine := emb, splitter_type := st,
              text_splitter := none, persist_directory := none,
              data_directory := dd }) := by
  constructor
  · rfl
  · intro h1 h2
    simp [PrepareVectorDB.init, h1, h2]

theorem C1_init_accepts_any_configuration_witness :
    (PrepareVectorDB.init (.str "d") "t" "r" "e" 500 50 500 50 "char").isOk = true ∧
    PrepareVectorDB.init (.str "d") "t" "r" "e" 500 50 500 50 "char" =
      .ok { embedding_model_engine := "e", splitter_type := "char",
            text_splitter := none, persist_directory := none,
            data_directory := .str "d" } :=
  ⟨(C1_init_accepts_any_configuration (.str "d") "t" "r" "e" 500 50 500 50 "char").1,
   (C1_init_accepts_any_configuration (.str "d") "t" "r" "e" 500 50 500 50 "char").2
     (by decide) (by decide)⟩

/-- C2: for a pipeline instance constructed with a valid splitter policy,
exactly one splitter policy is active — `"recursive"` yields the
recursive-character splitter with the character-unit parameters and binds
`persist_directory` to `recursive_vector_db_save_dir`; `"token"` yields
the token splitter with the token-unit parameters and binds
`persist_directory` to `token_vector_db_save_dir` — and running the
pipeline never changes the instance: the post-state of any successful run
equals the state as constructed. -/
theorem C2_one_policy_one_directory_fixed
    (dd : DataDirectory) (tokDir recDir emb : String)
    (cs co tcs tco : Int) (st : String) (s : PrepareVectorDB)
    (hs : PrepareVectorDB.init dd tokDir recDir emb cs co tcs tco st = .ok s) :
    (st = "recursive" →
      s.text_splitter = some (.recursiveCharacter cs co ["\n\n", "\n", " ", ""]) ∧
      s.persist_directory = some recDir) ∧
    (st = "token" →
      s.text_splitter = some (.token tcs tco) ∧
      s.persist_directory = some tokDir) ∧
    (∀ (B : Backend) (fs : FileSystem) (vdb : Chroma)
        (s2 : PrepareVectorDB) (log : List String),
      s.prepare_and_save_vectordb B fs = (.ok (vdb, s2), log) → s2 = s) := by
  simp only [PrepareVectorDB.init, Except.ok.injEq] at hs
  refine ⟨?_, ?_, ?_⟩
  · intro h
    subst h
    rw [← hs]
    simp
  · intro h
    subst h
    rw [← hs]
    simp
  · intro B fs vdb s2 log hrun
    exact (prepare_ok_inv B fs s vdb s2 log hrun).1

theorem C2_one_policy_one_directory_fixed_witness :
    PrepareVectorDB.init (.str "d") "tok_db" "rec_db" "ada" 500 50 300 30 "recursive" =
      .ok { embedding_model_engine := "ada", splitter_type := "recursive",
            text_splitter := some (.recursiveCharacter 500 50 ["\n\n", "\n", " ", ""]),
            persist_directory := some "rec_db", data_directory := .str "d" } ∧
    ({ embedding_model_engine := "ada", splitter_type := "recursive",
       text_splitter := some (.recursiveCharacter 500 50 ["\n\n", "\n", " ", ""]),
       persist_directory := some "rec_db", data_directory := .str "d" } :
      PrepareVectorDB).text_splitter =
        some (.recursiveCharacter 500 50 ["\n\n", "\n", " ", ""]) ∧
    ({ embedding_model_engine := "ada", splitter_type := "recursive",
       text_splitter := some (.recursiveCharacter 500 50 ["\n\n", "\n", " ", ""]),
       persist_directory := some "rec_db", data_directory := .str "d" } :
      PrepareVectorDB).persist_directory = some "rec_db" := by
  refine ⟨rfl, ?_⟩
  have h := (C2_one_policy_one_directory_fixed (.str "d") "tok_db" "rec_db" "ada"
    500 50 300 30 "recursive"
    { embedding_model_engine := "ada", splitter_type := "recursive",
      text_splitter := some (.recursiveCharacter 500 50 ["\n\n", "\n", " ", ""]),
      persist_directory := some "rec_db", data_directory := .str "d" } rfl).1 rfl
  exact h

/-- C3: every completed run of `prepare_and_save_vectordb` produces a
vector index whose `count()` equals the number of chunks obtained by
chunking the loaded documents with the active splitter: one index entry
is created per chunk, no more and no fewer. -/
theorem C3_count_equals_chunk_count
    (B : Backend) (fs : FileSystem) (s : PrepareVectorDB)
    (vdb : Chroma) (s2 : PrepareVectorDB) (log : List String)
    (h : s.prepare_and_save_vectordb B fs = (.ok (vdb, s2), log)) :
    ∃ docs ts,
      s.load_all_documents fs = .ok docs ∧
      s.text_splitter = some ts ∧
      vdb.count = (B.split_documents ts docs).length := by
  obtain ⟨-, docs, ts, pd, hl, hts, hpd, hfd, -⟩ := prepare_ok_inv B fs s vdb s2 log h
  exact ⟨docs, ts, hl, hts, (from_documents_entries _ _ _ _ _ hfd).1⟩

theorem C3_count_equals_chunk_count_witness :
    ∃ docs ts,
      demoState.load_all_documents demoFS = .ok docs ∧
      demoState.text_splitter = some ts ∧
      Chroma.count { entries := [{ vector := [1, 2], text := "hello",
                                   source := "d/a.pdf", page := 0 }],
                     persist_directory := "rec_db" } =
        (demoBackend.split_documents ts docs).length :=
  C3_count_equals_chunk_count demoBackend demoFS demoState
    { entries := [{ vector := [1, 2], text := "hello",
                    source := "d/a.pdf", page := 0 }],
      persist_directory := "rec_db" }
    demoState ["rec_db"] rfl

/-- C4: when a file in the configured directory fails to load — here the
first unreadable path `p` in directory-listing order, after readable
paths `pre` — `load_all_documents` fails with a `DocumentLoadError`
naming that file, `prepare_and_save_vectordb` fails with the same error,
and the run hands the vector store no persistence directory at all:
nothing is written when loading fails. -/
theorem C4_corrupt_file_aborts_without_persist
    (B : Backend) (fs : FileSystem) (s : PrepareVectorDB) (dir p : String)
    (pre post : List String) (pages : String → List Doc)
    (hd : s.data_directory = .str dir)
    (hlist : (fs.listdir dir).map (osPathJoin dir) = pre ++ p :: post)
    (hpre : ∀ q ∈ pre, fs.pypdf_load q = some (pages q))
    (hp : fs.pypdf_load p = none) :
    s.load_all_documents fs = .error (.documentLoadError p) ∧
    s.prepare_and_save_vectordb B fs = (.error (.documentLoadError p), []) := by
  have hload : s.load_all_documents fs = .error (.documentLoadError p) := by
    simp only [PrepareVectorDB.load_all_documents, hd, hlist]
    exact loadLoop_error_at fs pages p hp pre post hpre
  refine ⟨hload, ?_⟩
  simp only [PrepareVectorDB.prepare_and_save_vectordb, hload]

theorem C4_corrupt_file_aborts_without_persist_witness :
    demoState.load_all_documents corruptFS =
      .error (.documentLoadError "d/bad.pdf") ∧
    demoState.prepare_and_save_vectordb demoBackend corruptFS =
      (.error (.documentLoadError "d/bad.pdf"), []) :=
  C4_corrupt_file_aborts_without_persist demoBackend corruptFS demoState
    "d" "d/bad.pdf" ["d/a.pdf"] ["d/c.pdf"] (fun _ => [demoDoc])
    rfl (by decide) (by decide) (by decide)

/-- C5: `load_all_documents` yields one page-document per page.  In list
mode the paths are processed in the given list order, each path's pages
contiguous in the result; in directory mode the files are processed in
directory-listing order (joined to the directory, not sorted); in both
modes the total length is the sum of the per-file page counts. -/
theorem C5_one_doc_per_page_in_order
    (fs : FileSystem) (s : PrepareVectorDB) (pages : String → List Doc) :
    (∀ ps, s.data_directory = .list ps →
      (∀ p ∈ ps, fs.pypdf_load p = some (pages p)) →
      s.load_all_documents fs = .ok (ps.flatMap pages) ∧
      (ps.flatMap pages).length = (ps.map fun p => (pages p).length).sum) ∧
    (∀ dir, s.data_directory = .str dir →
      (∀ p ∈ (fs.listdir dir).map (osPathJoin dir),
          fs.pypdf_load p = some (pages p)) →
      s.load_all_documents fs =
        .ok (((fs.listdir dir).map (osPathJoin dir)).flatMap pages) ∧
      (((fs.listdir dir).map (osPathJoin dir)).flatMap pages).length =
        (((fs.listdir dir).map (osPathJoin dir)).map
          fun p => (pages p).length).sum) := by
  constructor
  · intro ps hdd hall
    refine ⟨?_, List.length_flatMap ps pages⟩
    simp only [PrepareVectorDB.load_all_documents, hdd]
    exact loadLoop_ok fs pages ps hall
  · intro dir hdd hall
    refine ⟨?_, List.length_flatMap _ _⟩
    simp only [PrepareVectorDB.load_all_documents, hdd]
    exact loadLoop_ok fs pages _ hall

theorem C5_one_doc_per_page_in_order_witness :
    ({ demoState with data_directory := .list ["a.pdf", "b.pdf"] } :
        PrepareVectorDB).load_all_documents fivePageFS =
      .ok (["a.pdf", "b.pdf"].flatMap fivePages) ∧
    (["a.pdf", "b.pdf"].flatMap fivePages).length =
      (["a.pdf", "b.pdf"].map fun p => (fivePages p).length).sum :=
  (C5_one_doc_per_page_in_order fivePageFS
      { demoState with data_directory := .list ["a.pdf", "b.pdf"] }
      fivePages).1 ["a.pdf", "b.pdf"] rfl (by decide)

/-- C6: chunking is deterministic — the result of `__chunk_documents` is a
function of the active splitter configuration and the input document list
alone, so two pipeline states with the same `text_splitter` chunk the
same documents to the same chunks with the same count; in particular two
calls on identical inputs agree. -/
theorem C6_chunking_deterministic
    (B : Backend) (s1 s2 : PrepareVectorDB) (docs : List Doc)
    (h : s1.text_splitter = s2.text_splitter) :
    s1.chunk_documents B docs = s2.chunk_documents B docs := by
  simp only [PrepareVectorDB.chunk_documents, h]

theorem C6_chunking_deterministic_witness :
    demoState.chunk_documents demoBackend [demoDoc] =
      demoStateOther.chunk_documents demoBackend [demoDoc] :=
  C6_chunking_deterministic demoBackend demoState demoStateOther [demoDoc] rfl

/-- C7: every stage error of `prepare_and_save_vectordb` propagates to the
caller unchanged — a load failure, a chunking-stage failure, and a
failure inside the vector-store call (embedding or storage) each surface
as the very error the stage produced, none is caught and swallowed — and
no stage is retried internally: each run hands the vector store at most
one persistence attempt. -/
theorem C7_errors_propagate
    (B : Backend) (fs : FileSystem) (s : PrepareVectorDB) (e : PipelineError) :
    (s.load_all_documents fs = .error e →
      s.prepare_and_save_vectordb B fs = (.error e, [])) ∧
    (∀ docs, s.load_all_documents fs = .ok docs →
      s.chunk_documents B docs = .error e →
      s.prepare_and_save_vectordb B fs = (.error e, [])) ∧
    (∀ docs chunks pd, s.load_all_documents fs = .ok docs →
      s.chunk_documents B docs = .ok chunks →
      s.persist_directory = some pd →
      Chroma.from_documents B s.embedding_model_engine chunks pd = .error e →
      s.prepare_and_save_vectordb B fs = (.error e, [pd])) ∧
    (s.prepare_and_save_vectordb B fs).2.length ≤ 1 := by
  refine ⟨?_, ?_, ?_, ?_⟩
  · intro hl
    simp only [PrepareVectorDB.prepare_and_save_vectordb, hl]
  · intro docs hl hc
    simp only [PrepareVectorDB.prepare_and_save_vectordb, hl, hc]
  · intro docs chunks pd hl hc hpd hfd
    simp only [PrepareVectorDB.prepare_and_save_vectordb, hl, hc, hpd, hfd]
  · simp only [PrepareVectorDB.prepare_and_save_vectordb]
    cases hl : s.load_all_documents fs with
    | error e2 => simp
    | ok docs =>
      cases hc : s.chunk_documents B docs with
      | error e2 => simp [hc]
      | ok chunks =>
        cases hpd : s.persist_directory with
        | none => simp [hc]
        | some pd =>
          cases hfd : Chroma.from_documents B s.embedding_model_engine chunks pd with
          | error e2 => simp [hc, hfd]
          | ok v => simp [hc, hfd]

theorem C7_errors_propagate_witness :
    demoState.prepare_and_save_vectordb demoBackend corruptFS =
      (.error (.documentLoadError "d/bad.pdf"), []) :=
  (C7_errors_propagate demoBackend corruptFS demoState
    (.documentLoadError "d/bad.pdf")).1 rfl

/-- C8: persistence is routed by the policy chosen at construction — when
the two configured directories differ, an instance constructed with the
`"recursive"` policy never hands the vector store the token directory
(its trace stays within the recursive directory), an instance constructed
with the `"token"` policy never the recursive one, and a successful run
writes exactly its own policy's directory. -/
theorem C8_persistence_routed_by_policy
    (dd : DataDirectory) (tokDir recDir emb : String)
    (cs co tcs tco : Int) (B : Backend) (fs : FileSystem)
    (hne : recDir ≠ tokDir) :
    (∀ s, PrepareVectorDB.init dd tokDir recDir emb cs co tcs tco "recursive" = .ok s →
      tokDir ∉ (s.prepare_and_save_vectordb B fs).2 ∧
      (s.prepare_and_save_vectordb B fs).2 ⊆ [recDir] ∧
      (∀ vdb s2 log, s.prepare_and_save_vectordb B fs = (.ok (vdb, s2), log) →
        log = [recDir])) ∧
    (∀ s, PrepareVectorDB.init dd tokDir recDir emb cs co tcs tco "token" = .ok s →
      recDir ∉ (s.prepare_and_save_vectordb B fs).2 ∧
      (s.prepare_and_save_vectordb B fs).2 ⊆ [tokDir] ∧
      (∀ vdb s2 log, s.prepare_and_save_vectordb B fs = (.ok (vdb, s2), log) →
        log = [tokDir])) := by
  have main : ∀ (s : PrepareVectorDB) (d other : String),
      s.persist_directory = some d → other ≠ d →
      other ∉ (s.prepare_and_save_vectordb B fs).2 ∧
      (s.prepare_and_save_vectordb B fs).2 ⊆ [d] ∧
      (∀ vdb s2 log, s.prepare_and_save_vectordb B fs = (.ok (vdb, s2), log) →
        log = [d]) := by
    intro s d other hpd hod
    refine ⟨?_, ?_, ?_⟩
    · rcases prepare_log_cases B fs s with hlog | ⟨pd, hpd2, hlog⟩
      · rw [hlog]; simp
      · rw [hlog]
        rw [hpd] at hpd2
        cases hpd2
        simp [hod]
    · rcases prepare_log_cases B fs s with hlog | ⟨pd, hpd2, hlog⟩
      · rw [hlog]; simp
      · rw [hlog]
        rw [hpd] at hpd2
        cases hpd2
        simp
    · intro vdb s2 log hrun
      obtain ⟨-, docs, ts, pd, -, -, hpd2, -, hlog⟩ :=
        prepare_ok_inv B fs s vdb s2 log hrun
      rw [hpd] at hpd2
      cases hpd2
      exact hlog
  constructor
  · intro s hs
    have hpd : s.persist_directory = some recDir := by
      simp only [PrepareVectorDB.init, Except.ok.injEq] at hs
      rw [← hs]
      simp
    exact main s recDir tokDir hpd (fun h => hne h.symm)
  · intro s hs
    have hpd : s.persist_directory = some tokDir := by
      simp only [PrepareVectorDB.init, Except.ok.injEq] at hs
      rw [← hs]
      simp
    exact main s tokDir recDir hpd hne

theorem C8_persistence_routed_by_policy_witness :
    "tok_db" ∉ (demoState.prepare_and_save_vectordb demoBackend demoFS).2 ∧
    (demoState.prepare_and_save_vectordb demoBackend demoFS).2 ⊆ ["rec_db"] :=
  have h := (C8_persistence_routed_by_policy (.str "d") "tok_db" "rec_db" "ada"
    500 50 300 30 demoBackend demoFS (by decide)).1 demoState rfl
  ⟨h.1, h.2.1⟩

/-- C9: mode selection in `__load_all_documents` depends solely on the
runtime type of `data_directory` — a list is iterated as explicit file
paths, and any non-list value (a string) is enumerated via `os.listdir`
joined to the string; in particular a string naming a single loadable
file is still treated as a directory: with an empty listing the load
returns no documents, whatever the string itself would parse as. -/
theorem C9_mode_selected_by_runtime_type
    (fs : FileSystem) (s : PrepareVectorDB) :
    (∀ ps, s.data_directory = .list ps →
      s.load_all_documents fs = loadLoop fs ps) ∧
    (∀ p, s.data_directory = .str p →
      s.load_all_documents fs = loadLoop fs ((fs.listdir p).map (osPathJoin p))) ∧
    (∀ p, s.data_directory = .str p → fs.listdir p = [] →
      s.load_all_documents fs = .ok []) := by
  refine ⟨?_, ?_, ?_⟩
  · intro ps h
    simp only [PrepareVectorDB.load_all_documents, h]
  · intro p h
    simp only [PrepareVectorDB.load_all_documents, h]
  · intro p h hempty
    simp only [PrepareVectorDB.load_all_documents, h, hempty, List.map_nil]
    rfl

theorem C9_mode_selected_by_runtime_type_witness :
    singleFileFS.pypdf_load "only.pdf" = some [demoDoc] ∧
    ({ demoState with data_directory := .str "only.pdf" } :
        PrepareVectorDB).load_all_documents singleFileFS = .ok [] :=
  ⟨rfl,
   (C9_mode_selected_by_runtime_type singleFileFS
      { demoState with data_directory := .str "only.pdf" }).2.2
     "only.pdf" rfl rfl⟩

/-- C10: an empty source is not an error — an empty path list or an empty
directory listing loads zero documents, and, when the instance has a
splitter and a persistence directory, the splitter maps no documents to
no chunks and the storage backend accepts the persist, the full run
succeeds and produces an index with `count() = 0`. -/
theorem C10_empty_source_yields_empty_index
    (B : Backend) (fs : FileSystem) (s : PrepareVectorDB) :
    (s.data_directory = .list [] → s.load_all_documents fs = .ok []) ∧
    (∀ dir, s.data_directory = .str dir → fs.listdir dir = [] →
      s.load_all_documents fs = .ok []) ∧
    (∀ ts pd, s.load_all_documents fs = .ok [] →
      s.text_splitter = some ts →
      s.persist_directory = some pd →
      B.split_documents ts [] = [] →
      B.persist pd = .ok () →
      s.prepare_and_save_vectordb B fs =
        (.ok ({ entries := [], persist_directory := pd }, s), [pd]) ∧
      Chroma.count { entries := [], persist_directory := pd } = 0) := by
  refine ⟨?_, ?_, ?_⟩
  · intro h
    simp only [PrepareVectorDB.load_all_documents, h]
    rfl
  · intro dir h hempty
    simp only [PrepareVectorDB.load_all_documents, h, hempty, List.map_nil]
    rfl
  · intro ts pd hl hts hpd hsplit hper
    refine ⟨?_, rfl⟩
    simp only [PrepareVectorDB.prepare_and_save_vectordb, hl,
      PrepareVectorDB.chunk_documents, hts, hsplit, hpd,
      Chroma.from_documents, embedAll, hper]

theorem C10_empty_source_yields_empty_index_witness :
    ({ demoState with data_directory := .str "empty" } :
        PrepareVectorDB).prepare_and_save_vectordb demoBackend singleFileFS =
      (.ok ({ entries := [], persist_directory := "rec_db" },
            { demoState with data_directory := .str "empty" }), ["rec_db"]) ∧
    Chroma.count { entries := [], persist_directory := "rec_db" } = 0 :=
  (C10_empty_source_yields_empty_index demoBackend singleFileFS
      { demoState with data_directory := .str "empty" }).2.2
    (.recursiveCharacter 500 50 ["\n\n", "\n", " ", ""]) "rec_db"
    rfl rfl rfl rfl rfl
